import Mathlib

/-
Verification of the Global Rehydration System (src/global_rehydrate.py).

The coordinator is embedded shallowly: the mutable `self.state` becomes an
explicit `GlobalState` value threaded through each operation; the filesystem
and the child process spawned by `_execute_platform_script` become an explicit
`World` describing whether the registered script path exists and what the
`subprocess.run` call would yield (or the exception it would raise); clock
reads become an explicit `now : Nat` parameter.  Each operation returns, along
with its structured result, the new state and a flag recording whether
`_save_state` was called during the operation.
-/

namespace GlobalRehydrate

/-- Configuration dictionary, mirroring the defaults built in `_load_config`
(src/global_rehydrate.py lines 39-50).  Only `default_environment` and
`verify_integrity_by_default` are consulted by `rehydrate`. -/
structure Config where
  default_environment : String
  verify_integrity_by_default : Bool
  log_level : String
  max_retry_attempts : Nat
  timeout_seconds : Nat
deriving Repr, DecidableEq

/-- One entry of `manifest["scripts"]` (consumed in `_get_script_for_platform`,
lines 91-96): a platform tag and a script path. -/
structure ScriptEntry where
  platform : String
  path : String
deriving Repr, DecidableEq

/-- A rehydration history record as built in `rehydrate` (lines 178-184 and
190-193, 219-220).  In Python the record is a dict whose `returncode`,
`output` and `error` keys are absent until assigned; absence is modelled with
`Option`.  The timestamp string is abstracted to a `Nat` clock value. -/
structure RehydrationRecord where
  timestamp : Nat
  environment : String
  platform : String
  verify_integrity : Bool
  status : String
  returncode : Option Int
  output : Option String
  error : Option String
deriving Repr, DecidableEq

/-- The persisted global state, mirroring the dict built in `_load_state`
(lines 52-62): `last_rehydration`, `rehydration_history`,
`active_environments`, `system_status`. -/
structure GlobalState where
  last_rehydration : Option Nat
  rehydration_history : List RehydrationRecord
  active_environments : List String
  system_status : String
deriving Repr, DecidableEq

/-- The value returned by `_execute_platform_script` on the non-raising path
(lines 128-133). -/
structure ExecutionResult where
  success : Bool
  returncode : Int
  stdout : String
  stderr : String
deriving Repr, DecidableEq

/-- The external world one `rehydrate` call observes: whether the resolved
script path exists on disk (`script_path.exists()`, line 102), and the outcome
of running the child process (line 126) — either a returncode with captured
stdout and stderr, or the message of an exception raised by the attempt to
run it. -/
structure World where
  script_exists : Bool
  run : List String → Except String (Int × String × String)

/-- The structured dict returned by `rehydrate` (lines 164-168, 212-216,
225-229).  The Python dicts carry a `skipped` key only on the idempotent
short-circuit path and a `details` key only on the attempt paths; both are
modelled with `Option`. -/
structure RehydrateResult where
  success : Bool
  message : String
  skipped : Option Bool
  details : Option RehydrationRecord
deriving Repr, DecidableEq

/-- ASCII lowercasing of one character, modelling what Python `str.lower`
does on the platform names at issue. -/
def lowerChar (c : Char) : Char := c.toLower

/-- Lowercasing of a string, modelling `platform.system().lower()`
(line 83). -/
def strLower (s : String) : String := ⟨s.data.map lowerChar⟩

/-- Decides whether the pattern list is a prefix of the second list. -/
def beginsWith : List Char → List Char → Bool
  | [], _ => true
  | _ :: _, [] => false
  | p :: ps, x :: xs => p == x && beginsWith ps xs

/-- Decides whether the pattern list occurs contiguously inside the second
list. -/
def occursIn (pat : List Char) : List Char → Bool
  | [] => beginsWith pat []
  | x :: xs => beginsWith pat (x :: xs) || occursIn pat xs

/-- Substring test on strings: `strContains s sub` holds when `sub` occurs
contiguously in `s`.  Used only to state the spec's "host name containing
windows" reading of the platform resolver. -/
def strContains (s sub : String) : Bool := occursIn sub.data s.data

/-- `_detect_platform` (lines 81-89): lowercase the host system name; the
name `"windows"` maps to `"windows"`, the names `"linux"` and `"darwin"` map
to `"linux"`, and anything else falls back to `"linux"`. -/
def detect_platform (systemName : String) : String :=
  let system := strLower systemName
  if system = "windows" then "windows"
  else if system = "linux" ∨ system = "darwin" then "linux"
  else "linux"

/-- `_get_script_for_platform` (lines 91-96): first entry of the manifest's
script list whose `platform` field equals the given name, else `None`. -/
def get_script_for_platform (manifest : List ScriptEntry) (platform_name : String) :
    Option ScriptEntry :=
  manifest.find? (fun script => script.platform == platform_name)

/-- Command line built by `_execute_platform_script` (lines 106-122). -/
def build_command (script_info : ScriptEntry) (environment : String)
    (verify_integrity : Bool) : List String :=
  if script_info.platform = "windows" then
    ["powershell", "-ExecutionPolicy", "Bypass", "-File", script_info.path,
      "-Environment", environment]
      ++ (if verify_integrity then ["-VerifyIntegrity"] else [])
  else
    ["bash", script_info.path, "--environment=" ++ environment]
      ++ (if verify_integrity then ["--verify"] else [])

/-- `_execute_platform_script` (lines 98-133): raise `FileNotFoundError` when
the script path is missing; otherwise run the child process and package
`returncode`, captured `stdout` and `stderr`, with `success` meaning
returncode zero.  A raising outcome is an `Except.error` carrying the
exception message. -/
def execute_platform_script (w : World) (script_info : ScriptEntry)
    (environment : String) (verify_integrity : Bool) :
    Except String ExecutionResult :=
  if w.script_exists = false then
    Except.error ("Script not found: " ++ script_info.path)
  else
    match w.run (build_command script_info environment verify_integrity) with
    | Except.error e => Except.error e
    | Except.ok (rc, out, err) =>
        Except.ok { success := decide (rc = 0), returncode := rc,
                    stdout := out, stderr := err }

/-- The default state built by `_load_state` when no state file exists
(lines 57-62). -/
def initialState : GlobalState :=
  { last_rehydration := none, rehydration_history := [],
    active_environments := [], system_status := "uninitialized" }

/-- `rehydrate` (lines 135-229).  Returns the structured result (or the
propagated `ValueError` when no script is registered for the platform),
the state after the call, and whether `_save_state` ran. -/
def rehydrate (cfg : Config) (manifest : List ScriptEntry) (systemName : String)
    (w : World) (now : Nat) (environmentArg : Option String)
    (verifyArg : Option Bool) (force : Bool) (st : GlobalState) :
    Except String RehydrateResult × GlobalState × Bool :=
  let environment := environmentArg.getD cfg.default_environment
  let verify_integrity := verifyArg.getD cfg.verify_integrity_by_default
  if force = false ∧ st.system_status = "hydrated" ∧
      environment ∈ st.active_environments then
    (Except.ok { success := true, message := "Already hydrated",
                 skipped := some true, details := none }, st, false)
  else
    let current_platform := detect_platform systemName
    match get_script_for_platform manifest current_platform with
    | none =>
        (Except.error ("No script found for platform: " ++ current_platform),
         st, false)
    | some script_info =>
        let record0 : RehydrationRecord :=
          { timestamp := now, environment := environment,
            platform := current_platform, verify_integrity := verify_integrity,
            status := "in_progress", returncode := none, output := none,
            error := none }
        match execute_platform_script w script_info environment verify_integrity with
        | Except.ok result =>
            let record := { record0 with
              status := if result.success then "success" else "failed",
              returncode := some result.returncode,
              output := some result.stdout }
            let st1 :=
              if result.success then
                { st with
                  last_rehydration := some now,
                  system_status := "hydrated",
                  active_environments :=
                    if environment ∈ st.active_environments then
                      st.active_environments
                    else st.active_environments ++ [environment] }
              else st
            let st2 := { st1 with
              rehydration_history := st1.rehydration_history ++ [record] }
            (Except.ok { success := result.success,
                         message := if result.success then "Rehydration completed"
                                    else "Rehydration failed",
                         skipped := none, details := some record }, st2, true)
        | Except.error e =>
            let record := { record0 with status := "error", error := some e }
            let st2 := { st with
              rehydration_history := st.rehydration_history ++ [record] }
            (Except.ok { success := false, message := "Error: " ++ e,
                         skipped := none, details := some record }, st2, true)

/-- View returned by `get_status` (lines 231-238). -/
structure StatusView where
  system_status : String
  active_environments : List String
  last_rehydration : Option Nat
  total_rehydrations : Nat
deriving Repr, DecidableEq

/-- `get_status` (lines 231-238): pure read projection of the state. -/
def get_status (st : GlobalState) : StatusView :=
  { system_status := st.system_status,
    active_environments := st.active_environments,
    last_rehydration := st.last_rehydration,
    total_rehydrations := st.rehydration_history.length }

/-- Python list slice `l[a:]` for an arbitrary integer start `a`: a
nonnegative start drops `a` elements from the front; a negative start keeps
the last `|a|` elements (clamped at the full list). -/
def pySliceFrom {α : Type} (l : List α) (a : Int) : List α :=
  if 0 ≤ a then l.drop a.toNat
  else l.drop (l.length - (-a).toNat)

/-- `get_history` (lines 240-243): `history[-limit:] if limit else history`,
with `limit` an arbitrary integer. -/
def get_history (st : GlobalState) (limit : Int) : List RehydrationRecord :=
  let history := st.rehydration_history
  if limit = 0 then history else pySliceFrom history (-limit)

/-- `get_history` with the `limit` argument absent: the Python signature
defaults it to `10` (line 240). -/
def get_history_default (st : GlobalState) : List RehydrationRecord :=
  get_history st 10

/-- The state literal written by `reset` (lines 245-253); it coincides with
`initialState`. -/
def resetState : GlobalState :=
  { last_rehydration := none, rehydration_history := [],
    active_environments := [], system_status := "uninitialized" }

/-- `reset` (lines 245-254): unconditionally replace the state with the
uninitialized literal and save it. -/
def reset (_st : GlobalState) : GlobalState × Bool := (resetState, true)

/-- One coordinator operation, for reasoning about arbitrary call
sequences: a `rehydrate` call with all its inputs, or a `reset`. -/
inductive Op where
  | rehydrateOp (cfg : Config) (manifest : List ScriptEntry) (systemName : String)
      (w : World) (now : Nat) (environmentArg : Option String)
      (verifyArg : Option Bool) (force : Bool)
  | resetOp

/-- State reached after applying one operation (the result dict is
discarded). -/
def applyOp (st : GlobalState) : Op → GlobalState
  | Op.rehydrateOp cfg manifest systemName w now environmentArg verifyArg force =>
      (rehydrate cfg manifest systemName w now environmentArg verifyArg force st).2.1
  | Op.resetOp => (reset st).1

/-- State reached after a sequence of operations. -/
def runOps (st : GlobalState) (ops : List Op) : GlobalState :=
  ops.foldl applyOp st

/-! Concrete fixtures used by witnesses and counterexamples. -/

/-- The default configuration of `_load_config` (lines 44-50). -/
def cfg0 : Config :=
  { default_environment := "development", verify_integrity_by_default := true,
    log_level := "INFO", max_retry_attempts := 3, timeout_seconds := 300 }

/-- A manifest registering one linux script. -/
def manifest0 : List ScriptEntry :=
  [{ platform := "linux", path := "scripts/global_rehydrate.sh" }]

/-- A manifest registering only a windows script. -/
def manifestWin : List ScriptEntry :=
  [{ platform := "windows", path := "scripts/global_rehydrate.ps1" }]

/-- A world where the script exists and exits with code 0. -/
def okWorld : World :=
  { script_exists := true, run := fun _ => Except.ok (0, "restored", "") }

/-- A world where the script exists, exits with code 1 and writes
"disk full" to stderr. -/
def failWorld : World :=
  { script_exists := true, run := fun _ => Except.ok (1, "", "disk full") }

/-- A world where the registered script path does not exist on disk. -/
def missingWorld : World :=
  { script_exists := false, run := fun _ => Except.ok (0, "", "") }

/-- A hydrated state with one active environment. -/
def hydratedState : GlobalState :=
  { last_rehydration := some 5, rehydration_history := [],
    active_environments := ["production"], system_status := "hydrated" }

/-- A simple successful history record with the given timestamp. -/
def rcd (n : Nat) : RehydrationRecord :=
  { timestamp := n, environment := "development", platform := "linux",
    verify_integrity := true, status := "success", returncode := some 0,
    output := some "", error := none }

/-- A state whose history holds five records. -/
def st5 : GlobalState :=
  { last_rehydration := some 5,
    rehydration_history := [rcd 1, rcd 2, rcd 3, rcd 4, rcd 5],
    active_environments := ["development"], system_status := "hydrated" }

/-- A state whose history holds eleven records. -/
def st11 : GlobalState :=
  { last_rehydration := some 11,
    rehydration_history := (List.range 11).map rcd,
    active_environments := ["development"], system_status := "hydrated" }

/-- The record produced when the script path is missing in `missingWorld`. -/
def errRecordFx : RehydrationRecord :=
  { timestamp := 3, environment := "production", platform := "linux",
    verify_integrity := true, status := "error", returncode := none,
    output := none,
    error := some "Script not found: scripts/global_rehydrate.sh" }

/-- The record produced by a nonzero-exit run in `failWorld`. -/
def failRecordFx : RehydrationRecord :=
  { timestamp := 4, environment := "production", platform := "linux",
    verify_integrity := true, status := "failed", returncode := some 1,
    output := some "", error := none }

/-- The record produced by a successful run in `okWorld` with verification
turned off. -/
def okRecordFx : RehydrationRecord :=
  { timestamp := 2, environment := "production", platform := "linux",
    verify_integrity := false, status := "success", returncode := some 0,
    output := some "restored", error := none }

/-! Claim theorems. -/

/-- C1: when `system_status` is `"hydrated"` and the resolved environment is
already in `active_environments`, `rehydrate(E, force := false)` returns
success with `skipped = true`, consults no part of the world (the result is
the same for every `w`), appends nothing to the history (the state is
returned unchanged) and does not call `_save_state`. -/
theorem rehydrate_idempotent_skip (cfg : Config) (manifest : List ScriptEntry)
    (systemName : String) (w : World) (now : Nat) (E : String)
    (verifyArg : Option Bool) (st : GlobalState)
    (hStatus : st.system_status = "hydrated")
    (hMem : E ∈ st.active_environments) :
    rehydrate cfg manifest systemName w now (some E) verifyArg false st =
      (Except.ok { success := true, message := "Already hydrated",
                   skipped := some true, details := none }, st, false) := by
  simp [rehydrate, hStatus, hMem]

/-- Witness for C1 at a concrete hydrated state and environment. -/
theorem rehydrate_idempotent_skip_witness :
    hydratedState.system_status = "hydrated" ∧
    "production" ∈ hydratedState.active_environments ∧
    rehydrate cfg0 manifest0 "linux" okWorld 7 (some "production") none false
        hydratedState =
      (Except.ok { success := true, message := "Already hydrated",
                   skipped := some true, details := none },
       hydratedState, false) :=
  ⟨rfl, by decide,
    rehydrate_idempotent_skip cfg0 manifest0 "linux" okWorld 7 "production"
      none hydratedState rfl (by decide)⟩

/-- C4: when the idempotency gate does not fire and the manifest has no
script for the resolved platform, `rehydrate` propagates the `ValueError`
before any record is created: the state is returned unchanged (history
length in particular) and `_save_state` is not called. -/
theorem rehydrate_no_script_error (cfg : Config) (manifest : List ScriptEntry)
    (systemName : String) (w : World) (now : Nat)
    (environmentArg : Option String) (verifyArg : Option Bool) (force : Bool)
    (st : GlobalState)
    (hGate : ¬ (force = false ∧ st.system_status = "hydrated" ∧
      environmentArg.getD cfg.default_environment ∈ st.active_environments))
    (hScript : get_script_for_platform manifest (detect_platform systemName)
      = none) :
    rehydrate cfg manifest systemName w now environmentArg verifyArg force st =
      (Except.error ("No script found for platform: " ++
        detect_platform systemName), st, false) := by
  simp only [rehydrate]
  rw [if_neg hGate]
  simp [hScript]

/-- Witness for C4: manifest has only a windows entry while the resolved
platform is linux. -/
theorem rehydrate_no_script_error_witness :
    (¬ (true = false ∧ initialState.system_status = "hydrated" ∧
      (some "production").getD cfg0.default_environment ∈
        initialState.active_environments)) ∧
    get_script_for_platform manifestWin (detect_platform "linux") = none ∧
    rehydrate cfg0 manifestWin "linux" okWorld 0 (some "production") none true
        initialState =
      (Except.error ("No script found for platform: " ++
        detect_platform "linux"), initialState, false) :=
  ⟨by decide, by rfl,
    rehydrate_no_script_error cfg0 manifestWin "linux" okWorld 0
      (some "production") none true initialState (by decide) (by rfl)⟩

/-- C9 (counterexample): the host name `"windows10"` contains `"windows"`
but the resolver maps it to `"linux"`, not `"windows"`: the code compares
the lowercased name for equality with `"windows"`, it does not test
containment. -/
theorem detect_platform_contains_counterexample :
    strContains "windows10" "windows" = true ∧
    detect_platform "windows10" = "linux" ∧
    ("linux" : String) ≠ "windows" :=
  ⟨by decide, by rfl, by decide⟩

/-- C9 (amended): the platform resolver is a total function of the host
name with no failure path: a name whose lowercasing equals `"windows"` maps
to `"windows"` and every other name maps to `"linux"`; in particular
`"linux"`, `"darwin"` and `"Windows"` map as the spec's examples say. -/
theorem detect_platform_spec :
    (∀ s : String,
      (strLower s = "windows" ∧ detect_platform s = "windows") ∨
      (strLower s ≠ "windows" ∧ detect_platform s = "linux")) ∧
    detect_platform "linux" = "linux" ∧
    detect_platform "darwin" = "linux" ∧
    detect_platform "Windows" = "windows" := by
  refine ⟨?_, by rfl, by rfl, by rfl⟩
  intro s
  by_cases h : strLower s = "windows"
  · exact Or.inl ⟨h, by simp [detect_platform, h]⟩
  · refine Or.inr ⟨h, ?_⟩
    simp only [detect_platform]
    rw [if_neg h]
    split <;> rfl

/-- C7 (amended): `get_history` with a positive limit returns the most
recent `limit` records as a suffix in original order; limit `0` returns the
full history; an absent limit defaults to `10` rather than returning the
full history. -/
theorem get_history_spec (st : GlobalState) (limit : Int) :
    (0 < limit → get_history st limit =
      st.rehydration_history.drop
        (st.rehydration_history.length - limit.toNat)) ∧
    (limit = 0 → get_history st limit = st.rehydration_history) ∧
    get_history_default st = get_history st 10 := by
  refine ⟨?_, ?_, rfl⟩
  · intro h
    have hne : ¬ limit = 0 := by omega
    simp only [get_history]
    rw [if_neg hne]
    simp only [pySliceFrom]
    have hlt : ¬ (0 : Int) ≤ -limit := by omega
    rw [if_neg hlt]
    congr 1
    omega
  · intro h
    simp [get_history, h]

/-- Witness for C7: on a history of five records, limit `2` yields records
four and five in that order, and limit `0` yields the whole history. -/
theorem get_history_spec_witness :
    (0 < (2 : Int)) ∧
    get_history st5 2 = st5.rehydration_history.drop
      (st5.rehydration_history.length - (2 : Int).toNat) ∧
    st5.rehydration_history.drop
      (st5.rehydration_history.length - (2 : Int).toNat) = [rcd 4, rcd 5] ∧
    get_history st5 0 = st5.rehydration_history :=
  ⟨by decide, (get_history_spec st5 2).1 (by decide), by rfl,
    (get_history_spec st5 0).2.1 rfl⟩

/-- C7 (counterexample): on a history of eleven records, calling
`get_history` with the limit argument absent returns only ten records, not
the full history: the Python default for `limit` is `10`, not `0`. -/
theorem get_history_default_counterexample :
    (get_history_default st11).length = 10 ∧
    st11.rehydration_history.length = 11 ∧
    get_history_default st11 ≠ st11.rehydration_history := by
  refine ⟨by rfl, by rfl, fun h => ?_⟩
  have hlen := congrArg List.length h
  simp only [get_history_default, get_history, st11] at hlen
  exact absurd hlen (by decide)

/-- C10: for a positive `k`, `get_history` with limit `-k` drops the first
`min k (length h)` records of the history and returns all remaining newer
records in order — the Python slice `history[k:]` — rather than a window of
the most recent records. -/
theorem get_history_negative_limit (st : GlobalState) (k : Nat) (hk : 0 < k) :
    get_history st (-(k : Int)) =
      st.rehydration_history.drop (min k st.rehydration_history.length) := by
  have hne : ¬ (-(k : Int)) = 0 := by omega
  simp only [get_history]
  rw [if_neg hne]
  simp only [pySliceFrom]
  have hge : (0 : Int) ≤ -(-(k : Int)) := by omega
  rw [if_pos hge]
  have hk' : (-(-(k : Int))).toNat = k := by omega
  rw [hk']
  rcases le_or_lt k st.rehydration_history.length with h | h
  · rw [min_eq_left h]
  · rw [min_eq_right (le_of_lt h),
      List.drop_eq_nil_of_le (le_of_lt h), List.drop_length]

/-- Helper: when the gate does not fire, a script is found and the
invocation raises, `rehydrate` appends an error record and saves. -/
theorem rehydrate_eq_of_error (cfg : Config) (manifest : List ScriptEntry)
    (systemName : String) (w : World) (now : Nat)
    (environmentArg : Option String) (verifyArg : Option Bool) (force : Bool)
    (st : GlobalState) (script_info : ScriptEntry) (msg : String)
    (hGate : ¬ (force = false ∧ st.system_status = "hydrated" ∧
      environmentArg.getD cfg.default_environment ∈ st.active_environments))
    (hScript : get_script_for_platform manifest (detect_platform systemName)
      = some script_info)
    (hE : execute_platform_script w script_info
        (environmentArg.getD cfg.default_environment)
        (verifyArg.getD cfg.verify_integrity_by_default) = Except.error msg) :
    rehydrate cfg manifest systemName w now environmentArg verifyArg force st =
      (Except.ok
        { success := false, message := "Error: " ++ msg, skipped := none,
          details := some
            { timestamp := now,
              environment := environmentArg.getD cfg.default_environment,
              platform := detect_platform systemName,
              verify_integrity := verifyArg.getD cfg.verify_integrity_by_default,
              status := "error", returncode := none, output := none,
              error := some msg } },
       { st with rehydration_history := st.rehydration_history ++
           [{ timestamp := now,
              environment := environmentArg.getD cfg.default_environment,
              platform := detect_platform systemName,
              verify_integrity := verifyArg.getD cfg.verify_integrity_by_default,
              status := "error", returncode := none, output := none,
              error := some msg }] }, true) := by
  simp only [rehydrate]
  rw [if_neg hGate]
  simp [hScript, hE]

/-- Helper: when the gate does not fire, a script is found and the process
runs with `success = true`, `rehydrate` appends a success record, marks the
state hydrated, records the environment and saves. -/
theorem rehydrate_eq_of_run_success (cfg : Config) (manifest : List ScriptEntry)
    (systemName : String) (w : World) (now : Nat)
    (environmentArg : Option String) (verifyArg : Option Bool) (force : Bool)
    (st : GlobalState) (script_info : ScriptEntry) (result : ExecutionResult)
    (hGate : ¬ (force = false ∧ st.system_status = "hydrated" ∧
      environmentArg.getD cfg.default_environment ∈ st.active_environments))
    (hScript : get_script_for_platform manifest (detect_platform systemName)
      = some script_info)
    (hE : execute_platform_script w script_info
        (environmentArg.getD cfg.default_environment)
        (verifyArg.getD cfg.verify_integrity_by_default) = Except.ok result)
    (hs : result.success = true) :
    rehydrate cfg manifest systemName w now environmentArg verifyArg force st =
      (Except.ok
        { success := true, message := "Rehydration completed", skipped := none,
          details := some
            { timestamp := now,
              environment := environmentArg.getD cfg.default_environment,
              platform := detect_platform systemName,
              verify_integrity := verifyArg.getD cfg.verify_integrity_by_default,
              status := "success", returncode := some result.returncode,
              output := some result.stdout, error := none } },
       { last_rehydration := some now,
         rehydration_history := st.rehydration_history ++
           [{ timestamp := now,
              environment := environmentArg.getD cfg.default_environment,
              platform := detect_platform systemName,
              verify_integrity := verifyArg.getD cfg.verify_integrity_by_default,
              status := "success", returncode := some result.returncode,
              output := some result.stdout, error := none }],
         active_environments :=
           if environmentArg.getD cfg.default_environment ∈
               st.active_environments then st.active_environments
           else st.active_environments ++
             [environmentArg.getD cfg.default_environment],
         system_status := "hydrated" }, true) := by
  simp only [rehydrate]
  rw [if_neg hGate]
  simp [hScript, hE, hs]

/-- Helper: when the gate does not fire, a script is found and the process
runs with `success = false`, `rehydrate` appends a failed record, saves, and
leaves every other state field unchanged. -/
theorem rehydrate_eq_of_run_failure (cfg : Config) (manifest : List ScriptEntry)
    (systemName : String) (w : World) (now : Nat)
    (environmentArg : Option String) (verifyArg : Option Bool) (force : Bool)
    (st : GlobalState) (script_info : ScriptEntry) (result : ExecutionResult)
    (hGate : ¬ (force = false ∧ st.system_status = "hydrated" ∧
      environmentArg.getD cfg.default_environment ∈ st.active_environments))
    (hScript : get_script_for_platform manifest (detect_platform systemName)
      = some script_info)
    (hE : execute_platform_script w script_info
        (environmentArg.getD cfg.default_environment)
        (verifyArg.getD cfg.verify_integrity_by_default) = Except.ok result)
    (hs : result.success = false) :
    rehydrate cfg manifest systemName w now environmentArg verifyArg force st =
      (Except.ok
        { success := false, message := "Rehydration failed", skipped := none,
          details := some
            { timestamp := now,
              environment := environmentArg.getD cfg.default_environment,
              platform := detect_platform systemName,
              verify_integrity := verifyArg.getD cfg.verify_integrity_by_default,
              status := "failed", returncode := some result.returncode,
              output := some result.stdout, error := none } },
       { st with rehydration_history := st.rehydration_history ++
           [{ timestamp := now,
              environment := environmentArg.getD cfg.default_environment,
              platform := detect_platform systemName,
              verify_integrity := verifyArg.getD cfg.verify_integrity_by_default,
              status := "failed", returncode := some result.returncode,
              output := some result.stdout, error := none }] }, true) := by
  simp only [rehydrate]
  rw [if_neg hGate]
  simp [hScript, hE, hs]

/-- Witness for C10: on a history of five records, limit `-2` removes the
two oldest records and keeps records three, four and five in order. -/
theorem get_history_negative_limit_witness :
    0 < 2 ∧
    get_history st5 (-(2 : Int)) =
      st5.rehydration_history.drop (min 2 st5.rehydration_history.length) ∧
    st5.rehydration_history.drop (min 2 st5.rehydration_history.length) =
      [rcd 3, rcd 4, rcd 5] :=
  ⟨by decide, get_history_negative_limit st5 2 (by decide), by rfl⟩

/-- C3: an exception raised during script invocation (for example a missing
script path) does not propagate: `rehydrate` returns a structured result
with `success = false`, appends a record whose status is `"error"` and
whose `error` field holds the exception message, leaves `system_status` and
`active_environments` (and every state field but the history) unchanged,
and saves the state. -/
theorem rehydrate_exception_records_error (cfg : Config)
    (manifest : List ScriptEntry) (systemName : String) (w : World) (now : Nat)
    (environmentArg : Option String) (verifyArg : Option Bool) (force : Bool)
    (st : GlobalState) (script_info : ScriptEntry) (msg : String)
    (hGate : ¬ (force = false ∧ st.system_status = "hydrated" ∧
      environmentArg.getD cfg.default_environment ∈ st.active_environments))
    (hScript : get_script_for_platform manifest (detect_platform systemName)
      = some script_info)
    (hE : execute_platform_script w script_info
        (environmentArg.getD cfg.default_environment)
        (verifyArg.getD cfg.verify_integrity_by_default) = Except.error msg) :
    rehydrate cfg manifest systemName w now environmentArg verifyArg force st =
      (Except.ok
        { success := false, message := "Error: " ++ msg, skipped := none,
          details := some
            { timestamp := now,
              environment := environmentArg.getD cfg.default_environment,
              platform := detect_platform systemName,
              verify_integrity := verifyArg.getD cfg.verify_integrity_by_default,
              status := "error", returncode := none, output := none,
              error := some msg } },
       { st with rehydration_history := st.rehydration_history ++
           [{ timestamp := now,
              environment := environmentArg.getD cfg.default_environment,
              platform := detect_platform systemName,
              verify_integrity := verifyArg.getD cfg.verify_integrity_by_default,
              status := "error", returncode := none, output := none,
              error := some msg }] }, true) :=
  rehydrate_eq_of_error cfg manifest systemName w now environmentArg verifyArg
    force st script_info msg hGate hScript hE

/-- Witness for C3: the registered script path does not exist in
`missingWorld`; the appended record is `errRecordFx`, whose `error` field
holds the not-found message. -/
theorem rehydrate_exception_records_error_witness :
    (¬ (true = false ∧ initialState.system_status = "hydrated" ∧
      (some "production").getD cfg0.default_environment ∈
        initialState.active_environments)) ∧
    get_script_for_platform manifest0 (detect_platform "linux") =
      some { platform := "linux", path := "scripts/global_rehydrate.sh" } ∧
    execute_platform_script missingWorld
        { platform := "linux", path := "scripts/global_rehydrate.sh" }
        "production" true =
      Except.error "Script not found: scripts/global_rehydrate.sh" ∧
    rehydrate cfg0 manifest0 "linux" missingWorld 3 (some "production") none
        true initialState =
      (Except.ok
        { success := false,
          message := "Error: Script not found: scripts/global_rehydrate.sh",
          skipped := none, details := some errRecordFx },
       { initialState with rehydration_history :=
           initialState.rehydration_history ++ [errRecordFx] }, true) :=
  ⟨by decide, by rfl, by rfl,
    rehydrate_exception_records_error cfg0 manifest0 "linux" missingWorld 3
      (some "production") none true initialState
      { platform := "linux", path := "scripts/global_rehydrate.sh" }
      "Script not found: scripts/global_rehydrate.sh"
      (by decide) (by rfl) (by rfl)⟩

/-- C5: when the script runs to completion and exits with a nonzero code,
the appended record has status `"failed"` and carries that return code and
the captured stdout, and `system_status`, `active_environments` and
`last_rehydration` keep their values from before the call. -/
theorem rehydrate_nonzero_exit_failed (cfg : Config)
    (manifest : List ScriptEntry) (systemName : String) (w : World) (now : Nat)
    (environmentArg : Option String) (verifyArg : Option Bool) (force : Bool)
    (st : GlobalState) (script_info : ScriptEntry) (rc : Int)
    (out err : String)
    (hGate : ¬ (force = false ∧ st.system_status = "hydrated" ∧
      environmentArg.getD cfg.default_environment ∈ st.active_environments))
    (hScript : get_script_for_platform manifest (detect_platform systemName)
      = some script_info)
    (hExists : w.script_exists = true)
    (hRun : w.run (build_command script_info
        (environmentArg.getD cfg.default_environment)
        (verifyArg.getD cfg.verify_integrity_by_default)) =
      Except.ok (rc, out, err))
    (hrc : rc ≠ 0) :
    rehydrate cfg manifest systemName w now environmentArg verifyArg force st =
      (Except.ok
        { success := false, message := "Rehydration failed", skipped := none,
          details := some
            { timestamp := now,
              environment := environmentArg.getD cfg.default_environment,
              platform := detect_platform systemName,
              verify_integrity := verifyArg.getD cfg.verify_integrity_by_default,
              status := "failed", returncode := some rc, output := some out,
              error := none } },
       { st with rehydration_history := st.rehydration_history ++
           [{ timestamp := now,
              environment := environmentArg.getD cfg.default_environment,
              platform := detect_platform systemName,
              verify_integrity := verifyArg.getD cfg.verify_integrity_by_default,
              status := "failed", returncode := some rc, output := some out,
              error := none }] }, true) := by
  have hE : execute_platform_script w script_info
      (environmentArg.getD cfg.default_environment)
      (verifyArg.getD cfg.verify_integrity_by_default) =
      Except.ok { success := decide (rc = 0), returncode := rc,
                  stdout := out, stderr := err } := by
    simp [execute_platform_script, hExists, hRun]
  have hs : ({ success := decide (rc = 0), returncode := rc, stdout := out,
               stderr := err } : ExecutionResult).success = false := by
    simp [hrc]
  exact rehydrate_eq_of_run_failure cfg manifest systemName w now
    environmentArg verifyArg force st script_info _ hGate hScript hE hs

/-- Witness for C5: in `failWorld` the script exits with code 1 and stderr
`"disk full"`; the appended record is `failRecordFx` and the state keeps all
its fields other than the history. -/
theorem rehydrate_nonzero_exit_failed_witness :
    (¬ (true = false ∧ initialState.system_status = "hydrated" ∧
      (some "production").getD cfg0.default_environment ∈
        initialState.active_environments)) ∧
    get_script_for_platform manifest0 (detect_platform "linux") =
      some { platform := "linux", path := "scripts/global_rehydrate.sh" } ∧
    failWorld.script_exists = true ∧
    failWorld.run (build_command
        { platform := "linux", path := "scripts/global_rehydrate.sh" }
        "production" true) = Except.ok (1, "", "disk full") ∧
    (1 : Int) ≠ 0 ∧
    rehydrate cfg0 manifest0 "linux" failWorld 4 (some "production") none true
        initialState =
      (Except.ok
        { success := false, message := "Rehydration failed", skipped := none,
          details := some failRecordFx },
       { initialState with rehydration_history :=
           initialState.rehydration_history ++ [failRecordFx] }, true) :=
  ⟨by decide, by rfl, rfl, rfl, by decide,
    rehydrate_nonzero_exit_failed cfg0 manifest0 "linux" failWorld 4
      (some "production") none true initialState
      { platform := "linux", path := "scripts/global_rehydrate.sh" }
      1 "" "disk full" (by decide) (by rfl) rfl rfl (by decide)⟩

/-- Helper: every single operation keeps the history free of
`"in_progress"` records. -/
theorem no_in_progress_step (st : GlobalState) (o : Op)
    (h : ∀ q ∈ st.rehydration_history, q.status ≠ "in_progress") :
    ∀ q ∈ (applyOp st o).rehydration_history, q.status ≠ "in_progress" := by
  cases o with
  | resetOp =>
      dsimp only [applyOp, reset]
      intro q hq
      simp [resetState] at hq
  | rehydrateOp cfg manifest systemName w now environmentArg verifyArg force =>
      by_cases hGate : (force = false ∧ st.system_status = "hydrated" ∧
        environmentArg.getD cfg.default_environment ∈ st.active_environments)
      · simp only [applyOp, rehydrate]
        rw [if_pos hGate]
        exact h
      · cases hScript : get_script_for_platform manifest
            (detect_platform systemName) with
        | none =>
            simp only [applyOp, rehydrate]
            rw [if_neg hGate, hScript]
            exact h
        | some script_info =>
            cases hE : execute_platform_script w script_info
                (environmentArg.getD cfg.default_environment)
                (verifyArg.getD cfg.verify_integrity_by_default) with
            | error msg =>
                have heq := rehydrate_eq_of_error cfg manifest systemName w
                  now environmentArg verifyArg force st script_info msg hGate
                  hScript hE
                simp only [applyOp, heq]
                intro q hq
                rcases List.mem_append.mp hq with h1 | h2
                · exact h q h1
                · rw [List.mem_singleton.mp h2]
                  exact (by decide : ("error" : String) ≠ "in_progress")
            | ok result =>
                by_cases hs : result.success = true
                · have heq := rehydrate_eq_of_run_success cfg manifest
                    systemName w now environmentArg verifyArg force st
                    script_info result hGate hScript hE hs
                  simp only [applyOp, heq]
                  intro q hq
                  rcases List.mem_append.mp hq with h1 | h2
                  · exact h q h1
                  · rw [List.mem_singleton.mp h2]
                    exact (by decide : ("success" : String) ≠ "in_progress")
                · have hs' : result.success = false := by
                    revert hs; cases result.success <;> simp
                  have heq := rehydrate_eq_of_run_failure cfg manifest
                    systemName w now environmentArg verifyArg force st
                    script_info result hGate hScript hE hs'
                  simp only [applyOp, heq]
                  intro q hq
                  rcases List.mem_append.mp hq with h1 | h2
                  · exact h q h1
                  · rw [List.mem_singleton.mp h2]
                    exact (by decide : ("failed" : String) ≠ "in_progress")

/-- Helper: freedom from `"in_progress"` records propagates along any
operation sequence. -/
theorem no_in_progress_runOps (ops : List Op) :
    ∀ st : GlobalState,
      (∀ q ∈ st.rehydration_history, q.status ≠ "in_progress") →
      ∀ q ∈ (runOps st ops).rehydration_history, q.status ≠ "in_progress" := by
  induction ops with
  | nil => exact fun st h => h
  | cons o rest ih =>
      intro st h
      simp only [runOps, List.foldl_cons]
      exact ih (applyOp st o) (no_in_progress_step st o h)

/-- C2: every call that reaches script invocation appends exactly one new
record, the record's status is terminal (`"success"`, `"failed"` or
`"error"`) at the moment it is appended, and the state is saved; moreover,
starting from the initial state, no history reachable by any operation
sequence ever holds a record with status `"in_progress"`. -/
theorem rehydrate_appends_one_terminal_record (cfg : Config)
    (manifest : List ScriptEntry) (systemName : String) (w : World) (now : Nat)
    (environmentArg : Option String) (verifyArg : Option Bool) (force : Bool)
    (st : GlobalState) (script_info : ScriptEntry)
    (hGate : ¬ (force = false ∧ st.system_status = "hydrated" ∧
      environmentArg.getD cfg.default_environment ∈ st.active_environments))
    (hScript : get_script_for_platform manifest (detect_platform systemName)
      = some script_info) :
    (∃ r, (rehydrate cfg manifest systemName w now environmentArg verifyArg
        force st).2.1.rehydration_history =
          st.rehydration_history ++ [r] ∧
      (r.status = "success" ∨ r.status = "failed" ∨ r.status = "error")) ∧
    (rehydrate cfg manifest systemName w now environmentArg verifyArg
      force st).2.2 = true ∧
    ((∀ q ∈ st.rehydration_history, q.status ≠ "in_progress") →
      ∀ q ∈ (rehydrate cfg manifest systemName w now environmentArg verifyArg
        force st).2.1.rehydration_history, q.status ≠ "in_progress") ∧
    (∀ ops : List Op, ∀ q ∈ (runOps initialState ops).rehydration_history,
      q.status ≠ "in_progress") := by
  have hInv : ∀ ops : List Op,
      ∀ q ∈ (runOps initialState ops).rehydration_history,
        q.status ≠ "in_progress" := fun ops =>
    no_in_progress_runOps ops initialState
      (fun q hq => by simp [initialState] at hq)
  cases hE : execute_platform_script w script_info
      (environmentArg.getD cfg.default_environment)
      (verifyArg.getD cfg.verify_integrity_by_default) with
  | error msg =>
      rw [rehydrate_eq_of_error cfg manifest systemName w now environmentArg
        verifyArg force st script_info msg hGate hScript hE]
      dsimp only
      refine ⟨⟨_, rfl, Or.inr (Or.inr rfl)⟩, rfl, ?_, hInv⟩
      intro hq q hmem
      rcases List.mem_append.mp hmem with h1 | h2
      · exact hq q h1
      · rw [List.mem_singleton.mp h2]
        exact (by decide : ("error" : String) ≠ "in_progress")
  | ok result =>
      by_cases hs : result.success = true
      · rw [rehydrate_eq_of_run_success cfg manifest systemName w now
          environmentArg verifyArg force st script_info result hGate hScript
          hE hs]
        dsimp only
        refine ⟨⟨_, rfl, Or.inl rfl⟩, rfl, ?_, hInv⟩
        intro hq q hmem
        rcases List.mem_append.mp hmem with h1 | h2
        · exact hq q h1
        · rw [List.mem_singleton.mp h2]
          exact (by decide : ("success" : String) ≠ "in_progress")
      · have hs' : result.success = false := by
          revert hs; cases result.success <;> simp
        rw [rehydrate_eq_of_run_failure cfg manifest systemName w now
          environmentArg verifyArg force st script_info result hGate hScript
          hE hs']
        dsimp only
        refine ⟨⟨_, rfl, Or.inr (Or.inl rfl)⟩, rfl, ?_, hInv⟩
        intro hq q hmem
        rcases List.mem_append.mp hmem with h1 | h2
        · exact hq q h1
        · rw [List.mem_singleton.mp h2]
          exact (by decide : ("failed" : String) ≠ "in_progress")

/-- Witness for C2 at a concrete forced call in `okWorld`. -/
theorem rehydrate_appends_one_terminal_record_witness :
    (¬ (true = false ∧ initialState.system_status = "hydrated" ∧
      (some "production").getD cfg0.default_environment ∈
        initialState.active_environments)) ∧
    get_script_for_platform manifest0 (detect_platform "linux") =
      some { platform := "linux", path := "scripts/global_rehydrate.sh" } ∧
    (∃ r, (rehydrate cfg0 manifest0 "linux" okWorld 1 (some "production")
        none true initialState).2.1.rehydration_history =
          initialState.rehydration_history ++ [r] ∧
      (r.status = "success" ∨ r.status = "failed" ∨ r.status = "error")) ∧
    (rehydrate cfg0 manifest0 "linux" okWorld 1 (some "production") none true
      initialState).2.2 = true ∧
    ((∀ q ∈ initialState.rehydration_history, q.status ≠ "in_progress") →
      ∀ q ∈ (rehydrate cfg0 manifest0 "linux" okWorld 1 (some "production")
        none true initialState).2.1.rehydration_history,
        q.status ≠ "in_progress") ∧
    (∀ ops : List Op, ∀ q ∈ (runOps initialState ops).rehydration_history,
      q.status ≠ "in_progress") := by
  have h := rehydrate_appends_one_terminal_record cfg0 manifest0 "linux"
    okWorld 1 (some "production") none true initialState
    { platform := "linux", path := "scripts/global_rehydrate.sh" }
    (by decide) (by rfl)
  exact ⟨by decide, by rfl, h.1, h.2.1, h.2.2.1, h.2.2.2⟩

/-- C8 (amended): the invoker captures the process's stdout and stderr
verbatim in its `ExecutionResult`, but the history record stores only the
stdout (in its `output` field); its `error` field stays empty, so the
stderr text is not persisted into the record. -/
theorem execute_streams_captured_record_stores_stdout (cfg : Config)
    (manifest : List ScriptEntry) (systemName : String) (w : World) (now : Nat)
    (environmentArg : Option String) (verifyArg : Option Bool) (force : Bool)
    (st : GlobalState) (script_info : ScriptEntry) (rc : Int)
    (out err : String)
    (hGate : ¬ (force = false ∧ st.system_status = "hydrated" ∧
      environmentArg.getD cfg.default_environment ∈ st.active_environments))
    (hScript : get_script_for_platform manifest (detect_platform systemName)
      = some script_info)
    (hExists : w.script_exists = true)
    (hRun : w.run (build_command script_info
        (environmentArg.getD cfg.default_environment)
        (verifyArg.getD cfg.verify_integrity_by_default)) =
      Except.ok (rc, out, err)) :
    execute_platform_script w script_info
        (environmentArg.getD cfg.default_environment)
        (verifyArg.getD cfg.verify_integrity_by_default) =
      Except.ok { success := decide (rc = 0), returncode := rc,
                  stdout := out, stderr := err } ∧
    (rehydrate cfg manifest systemName w now environmentArg verifyArg force
        st).2.1.rehydration_history =
      st.rehydration_history ++
        [{ timestamp := now,
           environment := environmentArg.getD cfg.default_environment,
           platform := detect_platform systemName,
           verify_integrity := verifyArg.getD cfg.verify_integrity_by_default,
           status := if rc = 0 then "success" else "failed",
           returncode := some rc, output := some out, error := none }] := by
  have hE : execute_platform_script w script_info
      (environmentArg.getD cfg.default_environment)
      (verifyArg.getD cfg.verify_integrity_by_default) =
      Except.ok { success := decide (rc = 0), returncode := rc,
                  stdout := out, stderr := err } := by
    simp [execute_platform_script, hExists, hRun]
  refine ⟨hE, ?_⟩
  by_cases hc : rc = 0
  · rw [rehydrate_eq_of_run_success cfg manifest systemName w now
      environmentArg verifyArg force st script_info _ hGate hScript hE
      (by simp [hc])]
    dsimp only
    simp [hc]
  · rw [rehydrate_eq_of_run_failure cfg manifest systemName w now
      environmentArg verifyArg force st script_info _ hGate hScript hE
      (by simp [hc])]
    dsimp only
    simp [hc]

/-- Witness for C8 at a successful run in `okWorld` with stdout
`"restored"`. -/
theorem execute_streams_captured_record_stores_stdout_witness :
    (¬ (true = false ∧ initialState.system_status = "hydrated" ∧
      (some "production").getD cfg0.default_environment ∈
        initialState.active_environments)) ∧
    get_script_for_platform manifest0 (detect_platform "linux") =
      some { platform := "linux", path := "scripts/global_rehydrate.sh" } ∧
    okWorld.script_exists = true ∧
    okWorld.run (build_command
        { platform := "linux", path := "scripts/global_rehydrate.sh" }
        "production" false) = Except.ok (0, "restored", "") ∧
    execute_platform_script okWorld
        { platform := "linux", path := "scripts/global_rehydrate.sh" }
        "production" false =
      Except.ok { success := true, returncode := 0, stdout := "restored",
                  stderr := "" } ∧
    (rehydrate cfg0 manifest0 "linux" okWorld 2 (some "production")
        (some false) true initialState).2.1.rehydration_history =
      initialState.rehydration_history ++ [okRecordFx] := by
  have h := execute_streams_captured_record_stores_stdout cfg0 manifest0
    "linux" okWorld 2 (some "production") (some false) true initialState
    { platform := "linux", path := "scripts/global_rehydrate.sh" }
    0 "restored" "" (by decide) (by rfl) rfl rfl
  exact ⟨by decide, by rfl, rfl, rfl, h.1, h.2⟩

/-- C8 (counterexample): with stderr `"disk full"` and empty stdout, the
appended record's `output` field is `some ""` and its `error` field is
`none`: the stderr text, although captured by the invoker, appears nowhere
in the persisted record, so stderr is not captured into the history
record. -/
theorem stderr_not_stored_counterexample :
    (rehydrate cfg0 manifest0 "linux" failWorld 4 (some "production") none
        true initialState).2.1.rehydration_history = [failRecordFx] ∧
    failWorld.run (build_command
        { platform := "linux", path := "scripts/global_rehydrate.sh" }
        "production" true) = Except.ok (1, "", "disk full") ∧
    failRecordFx.output = some "" ∧
    failRecordFx.error = none ∧
    some "" ≠ some "disk full" ∧
    (none : Option String) ≠ some "disk full" :=
  ⟨by rfl, rfl, by rfl, by rfl, by decide, by decide⟩

/-- Helper: a success record exists in a history extended by one record
exactly when one existed before or the new record is a success. -/
theorem exists_success_append_single (l : List RehydrationRecord)
    (r : RehydrationRecord) :
    (∃ q ∈ l ++ [r], q.status = "success") ↔
      ((∃ q ∈ l, q.status = "success") ∨ r.status = "success") := by
  simp [List.mem_append, or_and_right, exists_or]

/-- Helper: every single operation preserves the invariant tying
`system_status = "hydrated"` to the presence of a success record in the
history. -/
theorem hydrated_iff_success_step (st : GlobalState) (o : Op)
    (h : st.system_status = "hydrated" ↔
      ∃ r ∈ st.rehydration_history, r.status = "success") :
    ((applyOp st o).system_status = "hydrated" ↔
      ∃ r ∈ (applyOp st o).rehydration_history, r.status = "success") := by
  cases o with
  | resetOp =>
      dsimp only [applyOp, reset]
      exact iff_of_false (by decide) (by simp [resetState])
  | rehydrateOp cfg manifest systemName w now environmentArg verifyArg force =>
      by_cases hGate : (force = false ∧ st.system_status = "hydrated" ∧
        environmentArg.getD cfg.default_environment ∈ st.active_environments)
      · simp only [applyOp, rehydrate]
        rw [if_pos hGate]
        exact h
      · cases hScript : get_script_for_platform manifest
            (detect_platform systemName) with
        | none =>
            simp only [applyOp, rehydrate]
            rw [if_neg hGate, hScript]
            exact h
        | some script_info =>
            cases hE : execute_platform_script w script_info
                (environmentArg.getD cfg.default_environment)
                (verifyArg.getD cfg.verify_integrity_by_default) with
            | error msg =>
                have heq := rehydrate_eq_of_error cfg manifest systemName w
                  now environmentArg verifyArg force st script_info msg hGate
                  hScript hE
                simp only [applyOp, heq]
                rw [exists_success_append_single, h]
                exact (or_iff_left
                  (show ¬ (("error" : String) = "success") by decide)).symm
            | ok result =>
                by_cases hs : result.success = true
                · have heq := rehydrate_eq_of_run_success cfg manifest
                    systemName w now environmentArg verifyArg force st
                    script_info result hGate hScript hE hs
                  simp only [applyOp, heq]
                  rw [exists_success_append_single]
                  exact iff_of_true trivial (Or.inr rfl)
                · have hs' : result.success = false := by
                    revert hs; cases result.success <;> simp
                  have heq := rehydrate_eq_of_run_failure cfg manifest
                    systemName w now environmentArg verifyArg force st
                    script_info result hGate hScript hE hs'
                  simp only [applyOp, heq]
                  rw [exists_success_append_single, h]
                  exact (or_iff_left
                    (show ¬ (("failed" : String) = "success") by decide)).symm

/-- Helper: the invariant propagates along any operation sequence. -/
theorem hydrated_iff_success_runOps (ops : List Op) :
    ∀ st : GlobalState,
      (st.system_status = "hydrated" ↔
        ∃ r ∈ st.rehydration_history, r.status = "success") →
      ((runOps st ops).system_status = "hydrated" ↔
        ∃ r ∈ (runOps st ops).rehydration_history, r.status = "success") := by
  induction ops with
  | nil => exact fun st h => h
  | cons o rest ih =>
      intro st h
      simp only [runOps, List.foldl_cons]
      exact ih (applyOp st o) (hydrated_iff_success_step st o h)

/-- C6: starting from the initial state, after any sequence of `rehydrate`
and `reset` operations, `system_status` equals `"hydrated"` exactly when
the history holds at least one record with status `"success"`; since
`reset` clears the history and each attempt appends a record with its
outcome, this is precisely "at least one successful rehydration since the
most recent reset (or since the start)". -/
theorem system_status_hydrated_iff_success (ops : List Op) :
    (runOps initialState ops).system_status = "hydrated" ↔
      ∃ r ∈ (runOps initialState ops).rehydration_history,
        r.status = "success" :=
  hydrated_iff_success_runOps ops initialState
    (iff_of_false (by decide) (by simp [initialState]))

end GlobalRehydrate
